import Mathlib

/-
Shallow embedding of src/src/components/Conversation/ConversationSection.tsx.

The component is a React function component. Its state hooks become the
fields of `ComponentState`. Each handler becomes a state transition
function parameterised by the outcome of the awaited collaborator calls
(electronAPI / AudioRecorder), since those collaborators are external.

React closure semantics matter here: a handler created during a render
reads the state *values* of that render (its closure), while `useRef`
reads and `setX` writes always act on the live state. We therefore model
a handler invocation as a function of two states: `closure` (the state of
the render that created the handler instance) and `live` (the state at
invocation time). For a button click the two coincide, because the
onClick handler is recreated on every render. The toggle-recording
keyboard listener, however, is registered once inside a useEffect with an
empty dependency list, so it forever holds the handler instances of the
first render: for that path `closure` is the initial state.
-/

namespace ConversationSection

/-- Speaker role, the union type of the source. -/
inductive Speaker where
  | interviewer
  | interviewee
deriving DecidableEq

/-- ConversationMessage interface from the source. -/
structure ConversationMessage where
  id : String
  speaker : Speaker
  text : String
  timestamp : Nat
  edited : Bool := false
deriving DecidableEq

/-- AISuggestion interface from the source. -/
structure AISuggestion where
  suggestions : List String
  reasoning : String
deriving DecidableEq

/--
The useState hooks of the component plus the two mutable refs that carry
session state: `audioRecorder` is whether audioRecorderRef.current is
non-null, `recorderCapturing` is what audioRecorderRef.current
.getIsRecording() returns, `durationInterval` is whether
durationIntervalRef.current is non-null (a live duration timer).
-/
structure ComponentState where
  messages : List ConversationMessage
  isRecording : Bool
  currentSpeaker : Speaker
  aiSuggestions : Option AISuggestion
  isProcessing : Bool
  recordingDuration : Nat
  audioRecorder : Bool
  recorderCapturing : Bool
  durationInterval : Bool
deriving DecidableEq

/-- Initial values of the useState hooks and refs at the first render. -/
def initialState : ComponentState :=
  { messages := []
    isRecording := false
    currentSpeaker := Speaker.interviewee
    aiSuggestions := none
    isProcessing := false
    recordingDuration := 0
    audioRecorder := false
    recorderCapturing := false
    durationInterval := false }

/-- Outcome of awaiting audioRecorder.startRecording(): resolves or throws. -/
inductive StartOutcome where
  | ok
  | err
deriving DecidableEq

/-- Outcome of awaiting audioRecorder.stopRecording() and blob conversion. -/
inductive StopCaptureOutcome where
  | ok
  | err
deriving DecidableEq

/-- Outcome of awaiting electronAPI.transcribeAudio: success with a result
carrying text, a response without success/result, or a thrown error. -/
inductive TranscribeOutcome where
  | ok (text : String)
  | noResult
  | err
deriving DecidableEq

/-- Outcome of awaiting electronAPI.addConversationMessage. -/
inductive AppendOutcome where
  | ok
  | err
deriving DecidableEq

/-- Outcome of awaiting electronAPI.getAnswerSuggestions: success with
suggestions, a response without success/suggestions, or a thrown error. -/
inductive SuggestOutcome where
  | ok (s : AISuggestion)
  | noSuggestion
  | err
deriving DecidableEq

/-- Outcome of awaiting electronAPI.toggleSpeaker. -/
inductive ToggleOutcome where
  | ok (sp : Speaker)
  | failure
  | err
deriving DecidableEq

/-- Outcome of awaiting electronAPI.getConversation. -/
inductive GetConversationOutcome where
  | ok (msgs : List ConversationMessage)
  | failure
  | err
deriving DecidableEq

/--
Result of invoking a handler: the live state afterwards, whether a
blocking alert(...) was raised, the arguments of the
addConversationMessage call if one was made, and the argument of the
getAnswerSuggestions call if one was made.
-/
structure ActionResult where
  state : ComponentState
  alerted : Bool
  appended : Option (String × Speaker)
  suggestionRequested : Option String
deriving DecidableEq

/--
fetchAISuggestions (source lines 184 to 194): awaits
getAnswerSuggestions(question); if result.success and result.suggestions
it sets aiSuggestions to the result; on any failure it only logs (no
alert, no state change). Returns the new state and whether an alert was
raised. Note there is no staleness check: a successful result is applied
unconditionally.
-/
def fetchAISuggestions (s : ComponentState) (o : SuggestOutcome) :
    ComponentState × Bool :=
  match o with
  | SuggestOutcome.ok sugg => ({ s with aiSuggestions := some sugg }, false)
  | SuggestOutcome.noSuggestion => (s, false)
  | SuggestOutcome.err => (s, false)

/--
handleStartRecording (source lines 122 to 140): allocates the
AudioRecorder ref if absent, awaits startRecording(); on success sets
isRecording true, resets recordingDuration to 0 and starts the duration
interval; on a thrown error it alerts. There is no check of isRecording
or isProcessing before proceeding.
-/
def handleStartRecording (live : ComponentState) (o : StartOutcome) :
    ActionResult :=
  let s1 := { live with audioRecorder := true }
  match o with
  | StartOutcome.ok =>
      { state := { s1 with
          recorderCapturing := true
          isRecording := true
          recordingDuration := 0
          durationInterval := true }
        alerted := false
        appended := none
        suggestionRequested := none }
  | StartOutcome.err =>
      { state := s1, alerted := true, appended := none,
        suggestionRequested := none }

/-- The finally block of handleStopRecording: setIsProcessing(false) and
setRecordingDuration(0) run on every exit path of the try. -/
def finallyBlock (s : ComponentState) : ComponentState :=
  { s with isProcessing := false, recordingDuration := 0 }

/--
handleStopRecording (source lines 142 to 182). Guard: returns at once if
audioRecorderRef.current is null (a live ref read) or the closure value
of isRecording is false. Otherwise: setIsRecording(false), clear the
duration interval, setIsProcessing(true); in the try block it awaits
stopRecording, transcribeAudio, addConversationMessage, and either
fetchAISuggestions (closure speaker is interviewer) or
setAiSuggestions(null); a thrown error alerts; the finally block always
clears isProcessing and resets recordingDuration. State variable reads
(isRecording, currentSpeaker) come from `closure`; ref reads and all
setter writes act on `live`.
-/
def handleStopRecording (closure live : ComponentState)
    (cap : StopCaptureOutcome) (t : TranscribeOutcome)
    (a : AppendOutcome) (g : SuggestOutcome) : ActionResult :=
  if !live.audioRecorder || !closure.isRecording then
    { state := live, alerted := false, appended := none,
      suggestionRequested := none }
  else
    let s1 := { live with
      isRecording := false
      durationInterval := false
      isProcessing := true }
    match cap with
    | StopCaptureOutcome.err =>
        { state := finallyBlock s1, alerted := true, appended := none,
          suggestionRequested := none }
    | StopCaptureOutcome.ok =>
        let s2 := { s1 with recorderCapturing := false }
        match t with
        | TranscribeOutcome.err =>
            { state := finallyBlock s2, alerted := true, appended := none,
              suggestionRequested := none }
        | TranscribeOutcome.noResult =>
            { state := finallyBlock s2, alerted := false, appended := none,
              suggestionRequested := none }
        | TranscribeOutcome.ok text =>
            match a with
            | AppendOutcome.err =>
                { state := finallyBlock s2, alerted := true,
                  appended := some (text, closure.currentSpeaker),
                  suggestionRequested := none }
            | AppendOutcome.ok =>
                if closure.currentSpeaker = Speaker.interviewer then
                  let fr := fetchAISuggestions s2 g
                  { state := finallyBlock fr.1, alerted := fr.2,
                    appended := some (text, closure.currentSpeaker),
                    suggestionRequested := some text }
                else
                  { state := finallyBlock { s2 with aiSuggestions := none },
                    alerted := false,
                    appended := some (text, closure.currentSpeaker),
                    suggestionRequested := none }

/--
handleToggleSpeaker (source lines 196 to 206): awaits toggleSpeaker();
if result.success it adopts result.speaker and clears aiSuggestions; on
an unsuccessful result nothing happens; a thrown error is only logged.
There is no check of isRecording or isProcessing inside the handler.
-/
def handleToggleSpeaker (s : ComponentState) (o : ToggleOutcome) :
    ComponentState :=
  match o with
  | ToggleOutcome.ok sp =>
      { s with currentSpeaker := sp, aiSuggestions := none }
  | ToggleOutcome.failure => s
  | ToggleOutcome.err => s

/-- onConversationMessageAdded subscription (source lines 64 to 67):
blindly appends the delivered message to the local log. -/
def onConversationMessageAdded (s : ComponentState)
    (m : ConversationMessage) : ComponentState :=
  { s with messages := s.messages ++ [m] }

/-- onSpeakerChanged subscription (source lines 69 to 71): adopts the
pushed speaker. -/
def onSpeakerChanged (s : ComponentState) (sp : Speaker) : ComponentState :=
  { s with currentSpeaker := sp }

/-- onConversationMessageUpdated subscription (source lines 73 to 75):
maps over the log replacing every entry whose id equals the delivered
message id by the delivered message. -/
def onConversationMessageUpdated (s : ComponentState)
    (m : ConversationMessage) : ComponentState :=
  { s with messages :=
      s.messages.map (fun msg => if msg.id = m.id then m else msg) }

/-- onConversationCleared subscription (source lines 77 to 80): empties
the log and clears aiSuggestions. -/
def onConversationCleared (s : ComponentState) : ComponentState :=
  { s with messages := [], aiSuggestions := none }

/-- loadConversation (source lines 110 to 120): awaits getConversation();
on success replaces the local log wholesale; otherwise only logs. -/
def loadConversation (s : ComponentState) (o : GetConversationOutcome) :
    ComponentState :=
  match o with
  | GetConversationOutcome.ok msgs => { s with messages := msgs }
  | GetConversationOutcome.failure => s
  | GetConversationOutcome.err => s

/--
handleToggleRecording (source lines 83 to 90), the toggle-recording
keyboard listener body: reads the live recorder state through the ref
(audioRecorderRef.current?.getIsRecording() || false) and routes to
handleStopRecording or handleStartRecording. The handler instances it
calls are the ones captured in its closure.
-/
def handleToggleRecording (closure live : ComponentState)
    (so : StartOutcome) (cap : StopCaptureOutcome) (t : TranscribeOutcome)
    (a : AppendOutcome) (g : SuggestOutcome) : ActionResult :=
  let currentIsRecording := live.audioRecorder && live.recorderCapturing
  if currentIsRecording then
    handleStopRecording closure live cap t a g
  else
    handleStartRecording live so

/--
The keyboard-shortcut dispatch as registered at mount: the useEffect has
an empty dependency list, so the listener closes over the handler
instances of the first render, whose closure state is `initialState`.
-/
def shortcutToggleRecording (live : ComponentState)
    (so : StartOutcome) (cap : StopCaptureOutcome) (t : TranscribeOutcome)
    (a : AppendOutcome) (g : SuggestOutcome) : ActionResult :=
  handleToggleRecording initialState live so cap t a g

/-- The identifiers of the log entries, in log order. -/
def messageIds (l : List ConversationMessage) : List String :=
  l.map (fun m => m.id)

/-- Identifier uniqueness across the log. -/
def idsUnique (l : List ConversationMessage) : Prop :=
  (messageIds l).Nodup

instance (l : List ConversationMessage) : Decidable (idsUnique l) := by
  unfold idsUnique
  exact List.nodupDecidable (messageIds l)

/-! Concrete fixtures used by counterexamples and witnesses. -/

/-- A transcribed interviewer question, as stored by the host. -/
def q1Message : ConversationMessage :=
  { id := "m1", speaker := Speaker.interviewer,
    text := "How do you handle failures", timestamp := 1000 }

/-- A later interviewee reply delivered by the host. -/
def replyMessage : ConversationMessage :=
  { id := "m2", speaker := Speaker.interviewee,
    text := "I use retries", timestamp := 2000 }

/-- The suggestion payload the collaborator eventually returns for the
interviewer question. -/
def q1Suggestion : AISuggestion :=
  { suggestions := ["Mention retries", "Mention backoff"],
    reasoning := "Standard reliability answer" }

/-- State while the suggestion request for the interviewer question is
outstanding: the question is in the log, the speaker is interviewer, the
processing flag is still up, no suggestion is displayed yet. -/
def racePending : ComponentState :=
  { messages := [q1Message]
    isRecording := false
    currentSpeaker := Speaker.interviewer
    aiSuggestions := none
    isProcessing := true
    recordingDuration := 0
    audioRecorder := true
    recorderCapturing := false
    durationInterval := false }

/-- Race step 1: the speaker toggles (successfully) while the request is
outstanding. -/
def raceAfterToggle : ComponentState :=
  handleToggleSpeaker racePending (ToggleOutcome.ok Speaker.interviewee)

/-- Race step 2: the interviewee reply is delivered by the host. -/
def raceAfterReply : ComponentState :=
  onConversationMessageAdded raceAfterToggle replyMessage

/-- Race step 3: the response of the outstanding request for the old
question finally arrives and the continuation of fetchAISuggestions
runs on it. -/
def raceFinal : ComponentState :=
  (fetchAISuggestions raceAfterReply (SuggestOutcome.ok q1Suggestion)).1

/-- A state in which a suggestion is currently displayed. -/
def suggestionShown : ComponentState :=
  { initialState with aiSuggestions := some q1Suggestion }

/-!  Theorems settling the claims. -/

/--
C1: the spec requires that a suggestion response never becomes the
displayed suggestion when an invalidating event (speaker toggle, clear,
new recording) happened after the request was issued. The code has no
staleness check: in the exact race of the spec (request issued for an
interviewer question, speaker toggles to interviewee, an interviewee
message is appended, then the old response arrives) the stale response
IS installed as the displayed suggestion.
-/
theorem stale_suggestion_displayed_in_race :
    raceAfterToggle.currentSpeaker = Speaker.interviewee ∧
    raceAfterToggle.aiSuggestions = none ∧
    raceFinal.aiSuggestions = some q1Suggestion :=
  ⟨rfl, rfl, rfl⟩

/--
C2 counterexample: with a suggestion displayed, starting a new recording
(successfully) does not clear it, contradicting the claim that the
displayed suggestion is empty after a new recording start.
-/
theorem start_does_not_clear_suggestion_cex :
    ¬ (handleStartRecording suggestionShown StartOutcome.ok).state.aiSuggestions
        = none := by
  decide

/--
C2 amended: a successful speaker toggle and a conversation-cleared event
each leave the displayed suggestion empty, but the start of a new
recording leaves the displayed suggestion unchanged (it does not clear
it), whatever the outcome of the capture collaborator.
-/
theorem suggestion_clearing_amended :
    ∀ (s : ComponentState) (sp : Speaker) (o : StartOutcome),
      (handleToggleSpeaker s (ToggleOutcome.ok sp)).aiSuggestions = none ∧
      (onConversationCleared s).aiSuggestions = none ∧
      (handleStartRecording s o).state.aiSuggestions = s.aiSuggestions := by
  intro s sp o
  refine ⟨rfl, rfl, ?_⟩
  cases o <;> rfl

/-- A state in the Processing phase: recording already stopped, the
transcription pipeline still running. -/
def processingState : ComponentState :=
  { initialState with isProcessing := true, audioRecorder := true }

/-- A state mid-recording (interviewee active), with a suggestion from an
earlier question still displayed. -/
def recordingState : ComponentState :=
  { messages := [q1Message]
    isRecording := true
    currentSpeaker := Speaker.interviewee
    aiSuggestions := some q1Suggestion
    isProcessing := false
    recordingDuration := 5
    audioRecorder := true
    recorderCapturing := true
    durationInterval := true }

/--
C3 counterexample: a start() call in the Processing state with a
successful capture collaborator is not rejected: it changes state,
begins a capture and creates a duration timer, contradicting the claim
that start() while not Idle is rejected without side effects.
-/
theorem start_while_processing_cex :
    processingState.isProcessing = true ∧
    (handleStartRecording processingState StartOutcome.ok).state.isRecording
      = true ∧
    (handleStartRecording processingState StartOutcome.ok).state.durationInterval
      = true ∧
    ¬ (handleStartRecording processingState StartOutcome.ok).state
        = processingState := by
  decide

/--
C3 amended: handleStartRecording performs no internal state check; a
call made while Processing (with the capture collaborator succeeding)
proceeds: it begins a new capture, sets Recording, creates the duration
timer and resets the duration, while the processing flag is still up.
Rejection exists only as UI disablement of the button.
-/
theorem start_no_internal_guard_amended :
    ∀ s : ComponentState, s.isProcessing = true →
      (handleStartRecording s StartOutcome.ok).state.isRecording = true ∧
      (handleStartRecording s StartOutcome.ok).state.recorderCapturing = true ∧
      (handleStartRecording s StartOutcome.ok).state.durationInterval = true ∧
      (handleStartRecording s StartOutcome.ok).state.recordingDuration = 0 ∧
      (handleStartRecording s StartOutcome.ok).state.isProcessing = true := by
  intro s h
  refine ⟨rfl, rfl, rfl, rfl, ?_⟩
  simp [handleStartRecording, h]

/-- Witness for the amended C3 theorem at the concrete Processing state. -/
theorem start_no_internal_guard_witness :
    (handleStartRecording processingState StartOutcome.ok).state.isRecording
      = true ∧
    (handleStartRecording processingState StartOutcome.ok).state.recorderCapturing
      = true ∧
    (handleStartRecording processingState StartOutcome.ok).state.durationInterval
      = true ∧
    (handleStartRecording processingState StartOutcome.ok).state.recordingDuration
      = 0 ∧
    (handleStartRecording processingState StartOutcome.ok).state.isProcessing
      = true :=
  start_no_internal_guard_amended processingState rfl

/--
C4 counterexample: a speaker toggle invoked while Recording, with the
collaborator reporting success, is not rejected by the operation: the
active speaker changes and the displayed suggestion is invalidated,
contradicting the claim.
-/
theorem toggle_while_recording_cex :
    recordingState.isRecording = true ∧
    ¬ (handleToggleSpeaker recordingState
          (ToggleOutcome.ok Speaker.interviewer)).currentSpeaker
        = recordingState.currentSpeaker ∧
    ¬ (handleToggleSpeaker recordingState
          (ToggleOutcome.ok Speaker.interviewer)).aiSuggestions
        = recordingState.aiSuggestions := by
  decide

/--
C4 amended: handleToggleSpeaker contains no re-assertion of the
precondition; the guard is UI disablement only. Invoked while Recording
or Processing with a successful collaborator response, the operation
adopts the new speaker and clears the displayed suggestion.
-/
theorem toggleSpeaker_no_internal_guard_amended :
    ∀ (s : ComponentState) (sp : Speaker),
      s.isRecording = true ∨ s.isProcessing = true →
      (handleToggleSpeaker s (ToggleOutcome.ok sp)).currentSpeaker = sp ∧
      (handleToggleSpeaker s (ToggleOutcome.ok sp)).aiSuggestions = none := by
  intro s sp h
  exact ⟨rfl, rfl⟩

/-- Witness for the amended C4 theorem at the concrete Recording state. -/
theorem toggleSpeaker_no_internal_guard_witness :
    (handleToggleSpeaker recordingState
        (ToggleOutcome.ok Speaker.interviewer)).currentSpeaker
      = Speaker.interviewer ∧
    (handleToggleSpeaker recordingState
        (ToggleOutcome.ok Speaker.interviewer)).aiSuggestions = none :=
  toggleSpeaker_no_internal_guard_amended recordingState Speaker.interviewer
    (Or.inl rfl)

/--
C5: a stop() invoked in the Recording state (recorder allocated,
isRecording true; closure = live, the button path) ends with the session
Idle on every exit path: isRecording false, isProcessing false, duration
reset to 0 and the duration timer cleared, for every outcome of capture
finalisation, transcription, append and suggestion fetch, including the
failing ones.
-/
theorem stop_exits_idle :
    ∀ (live : ComponentState) (cap : StopCaptureOutcome)
      (t : TranscribeOutcome) (a : AppendOutcome) (g : SuggestOutcome),
      live.audioRecorder = true → live.isRecording = true →
      (handleStopRecording live live cap t a g).state.isRecording = false ∧
      (handleStopRecording live live cap t a g).state.isProcessing = false ∧
      (handleStopRecording live live cap t a g).state.recordingDuration = 0 ∧
      (handleStopRecording live live cap t a g).state.durationInterval
        = false := by
  intro live cap t a g h1 h2
  cases cap <;> cases t <;> cases a <;> cases g <;>
    by_cases hsp : live.currentSpeaker = Speaker.interviewer <;>
    simp [handleStopRecording, h1, h2, hsp, finallyBlock, fetchAISuggestions]

/-- Witness for C5 at a concrete Recording state with a failing
transcription. -/
theorem stop_exits_idle_witness :
    (handleStopRecording recordingState recordingState StopCaptureOutcome.ok
        TranscribeOutcome.err AppendOutcome.ok SuggestOutcome.err).state.isRecording
      = false ∧
    (handleStopRecording recordingState recordingState StopCaptureOutcome.ok
        TranscribeOutcome.err AppendOutcome.ok SuggestOutcome.err).state.isProcessing
      = false ∧
    (handleStopRecording recordingState recordingState StopCaptureOutcome.ok
        TranscribeOutcome.err AppendOutcome.ok SuggestOutcome.err).state.recordingDuration
      = 0 ∧
    (handleStopRecording recordingState recordingState StopCaptureOutcome.ok
        TranscribeOutcome.err AppendOutcome.ok SuggestOutcome.err).state.durationInterval
      = false :=
  stop_exits_idle recordingState StopCaptureOutcome.ok TranscribeOutcome.err
    AppendOutcome.ok SuggestOutcome.err rfl rfl

/-- The toggle-recording keyboard shortcut fired while the recorder is
actively capturing, with every collaborator call set up to succeed. -/
def shortcutStopAttempt : ActionResult :=
  shortcutToggleRecording recordingState StartOutcome.ok StopCaptureOutcome.ok
    (TranscribeOutcome.ok "I use retries") AppendOutcome.ok
    (SuggestOutcome.ok q1Suggestion)

/--
C6: the claim requires that stop() invoked through the toggle-recording
keyboard shortcut appends the transcribed text under the speaker active
at the moment of invocation. In the code the shortcut listener holds the
first-render handler instances (empty useEffect dependency list), whose
closure has isRecording = false; the routing correctly reads the live
recorder state and dispatches to handleStopRecording, but its guard then
reads the stale closure value and returns immediately: nothing is
stopped, transcribed or appended, and the state is untouched (still
Recording), even though every collaborator would have succeeded.
-/
theorem shortcut_stop_is_noop :
    shortcutStopAttempt.appended = none ∧
    shortcutStopAttempt.state = recordingState ∧
    shortcutStopAttempt.state.isRecording = true := by
  decide

/--
C7: the stop handler never mutates the local conversation log itself, on
any outcome of capture, transcription, append or suggestion fetch (in
particular on the successful append path); the local log grows exactly
when the message-added push event is delivered.
-/
theorem stop_preserves_local_log :
    (∀ (closure live : ComponentState) (cap : StopCaptureOutcome)
        (t : TranscribeOutcome) (a : AppendOutcome) (g : SuggestOutcome),
      (handleStopRecording closure live cap t a g).state.messages
        = live.messages) ∧
    (∀ (s : ComponentState) (m : ConversationMessage),
      (onConversationMessageAdded s m).messages = s.messages ++ [m]) := by
  constructor
  · intro closure live cap t a g
    by_cases hguard : (!live.audioRecorder || !closure.isRecording) = true
    · simp [handleStopRecording, hguard]
    · cases cap <;> cases t <;> cases a <;> cases g <;>
        by_cases hsp : closure.currentSpeaker = Speaker.interviewer <;>
        simp [handleStopRecording, hguard, hsp, finallyBlock, fetchAISuggestions]
  · intro s m
    rfl

/--
C8: a failing suggestion request (unsuccessful response or thrown error)
raises no blocking alert and changes no state at all: log, speaker,
recording phase, processing flag and displayed suggestion are exactly as
before.
-/
theorem suggestion_failure_no_effect :
    ∀ s : ComponentState,
      fetchAISuggestions s SuggestOutcome.noSuggestion = (s, false) ∧
      fetchAISuggestions s SuggestOutcome.err = (s, false) := by
  intro s
  exact ⟨rfl, rfl⟩

/-- Replacing every entry whose id matches by a message carrying that same
id leaves the id projection of the log unchanged. -/
theorem messageIds_update (m : ConversationMessage)
    (l : List ConversationMessage) :
    messageIds (l.map (fun msg => if msg.id = m.id then m else msg))
      = messageIds l := by
  unfold messageIds
  rw [List.map_map]
  have hfun : ((fun msg : ConversationMessage => msg.id) ∘
      (fun msg => if msg.id = m.id then m else msg))
      = fun msg : ConversationMessage => msg.id := by
    funext msg
    by_cases h : msg.id = m.id
    · simp [h]
    · simp [h]
  rw [hfun]

/-- The update map is the identity on a log with no matching id. -/
theorem map_update_no_match (m : ConversationMessage) :
    ∀ l : List ConversationMessage, (∀ x ∈ l, ¬ x.id = m.id) →
      l.map (fun msg => if msg.id = m.id then m else msg) = l := by
  intro l
  induction l with
  | nil =>
    intro h
    rfl
  | cons x xs ih =>
    intro h
    have hx : ¬ x.id = m.id := h x (List.mem_cons_self x xs)
    have hxs : ∀ y ∈ xs, ¬ y.id = m.id :=
      fun y hy => h y (List.mem_cons_of_mem x hy)
    simp [hx, ih hxs]

/-- A freshly delivered message id, appended, keeps the log ids Nodup. -/
theorem idsUnique_append_fresh (s : ComponentState) (m : ConversationMessage)
    (hn : idsUnique s.messages) (hfresh : m.id ∉ messageIds s.messages) :
    idsUnique (onConversationMessageAdded s m).messages := by
  have hids : messageIds (onConversationMessageAdded s m).messages
      = messageIds s.messages ++ [m.id] := by
    unfold onConversationMessageAdded messageIds
    simp [List.map_append]
  unfold idsUnique at hn ⊢
  rw [hids, List.nodup_append]
  refine ⟨hn, List.nodup_singleton m.id, ?_⟩
  intro x hx hmem
  simp only [List.mem_singleton] at hmem
  subst hmem
  exact hfresh hx

/-- A host-replayed message carrying an identifier already present in the
log. -/
def dupIdMessage : ConversationMessage :=
  { id := "m1", speaker := Speaker.interviewee, text := "Replayed",
    timestamp := 3000 }

/--
C9 counterexample: the log holding the single message with id m1 is
unique, but after the message-added handler blindly appends a delivered
message with the same id m1, uniqueness is violated, contradicting the
claim that every log operation preserves identifier uniqueness even on a
duplicate-identifier delivery.
-/
theorem duplicate_id_append_cex :
    idsUnique racePending.messages ∧
    ¬ idsUnique (onConversationMessageAdded racePending dupIdMessage).messages := by
  decide

/--
C9 amended: identifier uniqueness is preserved by the message-updated
handler, by the clear handler, by an initial load delivering a unique
list, and by the message-added handler only when the delivered
identifier is fresh; a duplicate-identifier delivery is blindly appended
(see the counterexample), so uniqueness is conditional on the host never
re-delivering an identifier.
-/
theorem log_id_uniqueness_amended :
    ∀ (s : ComponentState) (m : ConversationMessage)
      (l : List ConversationMessage),
      (idsUnique s.messages → m.id ∉ messageIds s.messages →
        idsUnique (onConversationMessageAdded s m).messages) ∧
      (idsUnique s.messages →
        idsUnique (onConversationMessageUpdated s m).messages) ∧
      idsUnique (onConversationCleared s).messages ∧
      (idsUnique l →
        idsUnique (loadConversation s (GetConversationOutcome.ok l)).messages) := by
  intro s m l
  refine ⟨?_, ?_, ?_, ?_⟩
  · intro hn hfresh
    exact idsUnique_append_fresh s m hn hfresh
  · intro hn
    unfold idsUnique
    have h2 : messageIds (onConversationMessageUpdated s m).messages
        = messageIds s.messages := messageIds_update m s.messages
    rw [h2]
    exact hn
  · simp [idsUnique, messageIds, onConversationCleared]
  · intro hl
    exact hl

/-- Witness for the amended C9 theorem on concrete logs. -/
theorem log_id_uniqueness_amended_witness :
    idsUnique (onConversationMessageAdded racePending replyMessage).messages ∧
    idsUnique (onConversationMessageUpdated racePending dupIdMessage).messages ∧
    idsUnique (onConversationCleared racePending).messages ∧
    idsUnique (loadConversation racePending
        (GetConversationOutcome.ok [q1Message])).messages :=
  ⟨(log_id_uniqueness_amended racePending replyMessage [q1Message]).1
      (by decide) (by decide),
   (log_id_uniqueness_amended racePending dupIdMessage [q1Message]).2.1
      (by decide),
   (log_id_uniqueness_amended racePending dupIdMessage [q1Message]).2.2.1,
   (log_id_uniqueness_amended racePending replyMessage [q1Message]).2.2.2
      (by decide)⟩

/--
C10: the message-updated handler preserves the length (hence order and
no appending) of the log, leaves every entry whose identifier differs
from the delivered one unchanged at its position, and when no entry
matches the delivered identifier it leaves the log completely unchanged.
-/
theorem update_handler_frame :
    ∀ (s : ComponentState) (m : ConversationMessage),
      (onConversationMessageUpdated s m).messages.length
        = s.messages.length ∧
      (∀ (i : Nat) (x : ConversationMessage),
        s.messages[i]? = some x → ¬ x.id = m.id →
        (onConversationMessageUpdated s m).messages[i]? = some x) ∧
      ((∀ x ∈ s.messages, ¬ x.id = m.id) →
        (onConversationMessageUpdated s m).messages = s.messages) := by
  intro s m
  refine ⟨?_, ?_, ?_⟩
  · simp [onConversationMessageUpdated]
  · intro i x hx hne
    show (s.messages.map (fun msg => if msg.id = m.id then m else msg))[i]?
        = some x
    rw [List.getElem?_map, hx]
    simp [hne]
  · intro hall
    simp only [onConversationMessageUpdated]
    exact map_update_no_match m s.messages hall

/-- Witness for C10 on a concrete log and a non-matching update. -/
theorem update_handler_frame_witness :
    (onConversationMessageUpdated racePending replyMessage).messages.length
      = racePending.messages.length ∧
    (onConversationMessageUpdated racePending replyMessage).messages[0]?
      = some q1Message ∧
    (onConversationMessageUpdated racePending replyMessage).messages
      = racePending.messages :=
  ⟨(update_handler_frame racePending replyMessage).1,
   (update_handler_frame racePending replyMessage).2.1 0 q1Message rfl
      (by decide),
   (update_handler_frame racePending replyMessage).2.2 (by decide)⟩

end ConversationSection
